import Mathlib

/-!
Shallow embedding of `src/src/strands_agents_builder/strands.py` from the
`agent-builder` repository, together with the extra-tools loading mechanism
exercised by `src/tests/test_extra_tools.py`.

Python strings are modelled as `List Char`; Python `None`-able values as
`Option`; the side effects of `main` (tool invocations, prints, knowledge-base
calls) as an explicit trace of `Event`s; the behaviour of the external calls
(whether each raises an exception) as an oracle `World`.
-/

/-- Python `str.lower()`. -/
def pyLower (s : List Char) : List Char := s.map Char.toLower

/-- Python `s.startswith(c)` for a single-character needle `c`. -/
def pyStartsWith (c : Char) (s : List Char) : Bool :=
  match s with
  | [] => false
  | a :: _ => a = c

/-- Python `str.strip()`: remove leading and trailing whitespace. -/
def pyStrip (s : List Char) : List Char :=
  (((s.dropWhile Char.isWhitespace).reverse).dropWhile Char.isWhitespace).reverse

/-- Python `" ".join(parts)`. -/
def pyJoin : List (List Char) → List Char
  | [] => []
  | [p] => p
  | p :: ps => p ++ ' ' :: pyJoin ps

/-- Python truthiness of an optional string: `None` and `""` are falsy. -/
def pyTruthy : Option (List Char) → Bool
  | none => false
  | some s => s ≠ []

/-- Python `a or b` on optional strings. -/
def pyOr (a b : Option (List Char)) : Option (List Char) :=
  if pyTruthy a then a else b

/-- Python `f"{x}"` on an optional string: `None` renders as `"None"`. -/
def pyStr : Option (List Char) → List Char
  | some s => s
  | none => "None".data

/-! ## Extra-tools loading (`load_extra_tools`) -/

/-- Modelled from the spec: `load_extra_tools` is imported by
`src/tests/test_extra_tools.py` from `strands_agents_builder.strands`, but its
definition is not present in the copy of `strands.py` under `src/`. Modelled
from the spec sentence "loading additional callable tools from a configuration
file and an environment variable, tolerating malformed entries" and the tests:
the `.tools` file is read line by line, each line stripped, with empty lines
and `#` comment lines skipped. The file content is `none` when no `.tools`
file exists. -/
def toolNamesFromFile : Option (List Char) → List (List Char)
  | none => []
  | some content =>
    ((content.splitOn '\n').map pyStrip).filter
      (fun l => l ≠ [] ∧ pyStartsWith '#' l = false)

/-- Modelled from the spec: the `STRANDS_EXTRA_TOOLS` environment variable is a
comma-separated list of tool names; each entry is stripped and empty entries
are skipped. `none` when the variable is unset. -/
def toolNamesFromEnv : Option (List Char) → List (List Char)
  | none => []
  | some v => ((v.splitOn ',').map pyStrip).filter (fun l => l ≠ [])

/-- Modelled from the spec: `load_extra_tools` collects tool names from the
`.tools` configuration file and the `STRANDS_EXTRA_TOOLS` environment variable
and imports each; an entry whose import fails is skipped without raising.
`importTool` is the import step: `none` models an import error. -/
def load_extra_tools {α : Type} (fileContent envVar : Option (List Char))
    (importTool : List Char → Option α) : List α :=
  (toolNamesFromFile fileContent ++ toolNamesFromEnv envVar).filterMap importTool

/-! ## Telemetry export configuration (module level, lines 62-73) -/

/-- The base64 alphabet. -/
def b64Alphabet : List Char :=
  "ABCDEFGHIJKLMNOPQRSTUVWXYZabcdefghijklmnopqrstuvwxyz0123456789+/".data

/-- The base64 digit for a 6-bit value. -/
def b64char (n : Nat) : Char := b64Alphabet.getD n 'A'

/-- Standard base64 encoding of a byte sequence, as in Python
`base64.b64encode`. -/
def b64encode : List Nat → List Char
  | [] => []
  | [a] => [b64char (a / 4), b64char (a % 4 * 16), '=', '=']
  | [a, b] => [b64char (a / 4), b64char (a % 4 * 16 + b / 16), b64char (b % 16 * 4), '=']
  | a :: b :: c :: rest =>
    [b64char (a / 4), b64char (a % 4 * 16 + b / 16),
     b64char (b % 16 * 4 + c / 64), b64char (c % 64)] ++ b64encode rest

/-- UTF-8 encoding of one character, as in Python `str.encode()`. -/
def utf8Char (c : Char) : List Nat :=
  let n := c.toNat
  if n < 128 then [n]
  else if n < 2048 then [192 + n / 64, 128 + n % 64]
  else if n < 65536 then [224 + n / 4096, 128 + n / 64 % 64, 128 + n % 64]
  else [240 + n / 262144, 128 + n / 4096 % 64, 128 + n / 64 % 64, 128 + n % 64]

/-- UTF-8 encoding of a string. -/
def utf8Bytes (s : List Char) : List Nat := (s.map utf8Char).flatten

/-- The Langfuse-related environment variables read at module level. -/
structure TelemetryEnv where
  langfuseHost : Option (List Char)
  langfusePublicKey : Option (List Char)
  langfuseSecretKey : Option (List Char)

/-- Lines 62-73 of `strands.py`: when `LANGFUSE_HOST` is truthy, compute the
pair of values written to `OTEL_EXPORTER_OTLP_ENDPOINT` and
`OTEL_EXPORTER_OTLP_HEADERS`; otherwise no write happens. -/
def otelUpdates (e : TelemetryEnv) : Option (List Char × List Char) :=
  match e.langfuseHost with
  | none => none
  | some h =>
    if h = [] then none
    else
      some (h ++ "/api/public/otel/v1/traces".data,
        "Authorization=Basic ".data ++
          b64encode (utf8Bytes
            (pyStr e.langfusePublicKey ++ ':' :: pyStr e.langfuseSecretKey)))

/-! ## The tools list passed to the Agent constructor (lines 128-158) -/

/-- The names of the tools wired into the agent, one constructor per module
referenced in the list literal at lines 128-158 of `strands.py`. -/
inductive ToolName
  | memory | file_read | file_write | shell | editor | http_request
  | python_repl | calculator | retrieve | use_aws | load_tool | environment
  | use_llm | think | journal | image_reader | generate_image | nova_reels
  | agent_graph | swarm | workflow | slack | stop | speak
  | store_in_kb | strand | welcome
deriving DecidableEq, Fintype

open ToolName in
/-- The list literal `tools = [...]` at lines 128-158 of `strands.py`, in
source order (`load_tool` appears at both line 139 and line 143). -/
def agentTools : List ToolName :=
  [memory, file_read, file_write, shell, editor, http_request, python_repl,
   calculator, retrieve, use_aws, load_tool, environment, use_llm, think,
   load_tool, journal, image_reader, generate_image, nova_reels, agent_graph,
   swarm, workflow, slack, stop, speak, store_in_kb, strand, welcome]

/-- The tools list as a function of the parsed command-line arguments and the
environment: the list literal in `main` mentions neither, so the function is
constant in both. `args` stands for the positional query arguments plus the
optional knowledge-base id; `env` is the process environment. -/
def agentToolsOf (_args : List (List Char) × Option (List Char))
    (_env : List Char → Option (List Char)) : List ToolName :=
  agentTools

/-! ## The interactive loop and the one-shot path (lines 180-258) -/

/-- One observable side effect of `main`: a direct tool invocation, an agent
invocation, a knowledge-base operation, or a print. -/
inductive Event
  | shellCall (command : List Char) (userMessageOverride : List Char)
  | replCall (code : List Char) (userMessageOverride : List Char)
  | retrieveCall (text : List Char) (knowledgeBaseId : List Char)
  | welcomeCall
  | welcomeRender (text : List Char)
  | agentCall (query : List Char)
  | storeCall (query : List Char) (knowledgeBaseId : List Char)
  | goodbye
  | echoPrint (s : List Char)
  | blankPrint
  | errorPrint
deriving DecidableEq

/-- Oracle for the behaviour of the external calls made during one loop
iteration (or the one-shot path): whether each raises an exception, and what
the `welcome` tool returns. -/
structure World where
  shellRaises : Bool
  replRaises : Bool
  retrieveRaises : Bool
  welcomeRaises : Bool
  welcomeStatus : Bool
  welcomeText : List Char
  agentRaises : Bool
  storeRaises : Bool
deriving DecidableEq

/-- A failure-free world: no external call raises and `welcome` succeeds. -/
def wOK : World :=
  { shellRaises := false, replRaises := false, retrieveRaises := false,
    welcomeRaises := false, welcomeStatus := true, welcomeText := [],
    agentRaises := false, storeRaises := false }

/-- One turn of input to the interactive loop: either a line returned by
`get_user_input`, or a `KeyboardInterrupt`/`EOFError` raised at the read. -/
inductive Input
  | line (s : List Char)
  | interrupt
deriving DecidableEq

/-- Whether the loop continues to the next iteration or breaks. -/
inductive LoopCtl
  | cont
  | brk
deriving DecidableEq

/-- Line 121: `knowledge_base_id = args.knowledge_base_id or
os.getenv("STRANDS_KNOWLEDGE_BASE_ID")`. -/
def knowledgeBaseId (kbArg envKb : Option (List Char)) : Option (List Char) :=
  pyOr kbArg envKb

/-- Python `if knowledge_base_id:` — the id `main` actually uses, `none` when
the stored value is falsy (`None` or the empty string). -/
def getKb : Option (List Char) → Option (List Char)
  | none => none
  | some k => if k = [] then none else some k

/-- `user_input.lower() in ["exit", "quit"]` (line 204). -/
def isExit (s : List Char) : Prop :=
  pyLower s = "exit".data ∨ pyLower s = "quit".data

instance (s : List Char) : Decidable (isExit s) := by
  unfold isExit; infer_instance

/-- Lines 235-253: the body run for an input that is not an exit command and
starts with neither `!` nor `>`, when it is non-empty after stripping. Each
external call emits its event when attempted; a call that raises makes the
outer handler print an error and the loop continue. -/
def runBody (kb : Option (List Char)) (w : World) (s : List Char) : List Event :=
  match getKb kb with
  | some k =>
    if w.retrieveRaises then [Event.retrieveCall s k, Event.errorPrint]
    else if w.welcomeRaises then
      [Event.retrieveCall s k, Event.welcomeCall, Event.errorPrint]
    else if w.agentRaises then
      [Event.retrieveCall s k, Event.welcomeCall, Event.agentCall s,
       Event.errorPrint]
    else if w.storeRaises then
      [Event.retrieveCall s k, Event.welcomeCall, Event.agentCall s,
       Event.storeCall s k, Event.errorPrint]
    else
      [Event.retrieveCall s k, Event.welcomeCall, Event.agentCall s,
       Event.storeCall s k]
  | none =>
    if w.welcomeRaises then [Event.welcomeCall, Event.errorPrint]
    else if w.agentRaises then
      [Event.welcomeCall, Event.agentCall s, Event.errorPrint]
    else [Event.welcomeCall, Event.agentCall s]

/-- Lines 203-258: process one turn of the interactive loop, returning the
emitted events and whether the loop breaks. -/
def processInput (kb : Option (List Char)) (w : World) :
    Input → List Event × LoopCtl
  | Input.interrupt => ([Event.goodbye], LoopCtl.brk)
  | Input.line s =>
    if isExit s then ([Event.goodbye], LoopCtl.brk)
    else if pyStartsWith '!' s then
      let cmd := s.drop 1
      ([Event.echoPrint cmd, Event.shellCall cmd s] ++
        (if w.shellRaises then [Event.errorPrint] else [Event.blankPrint]),
       LoopCtl.cont)
    else if pyStartsWith '>' s then
      let code := pyStrip (s.drop 1)
      ([Event.replCall code s] ++
        (if w.replRaises then [Event.errorPrint] else [Event.blankPrint]),
       LoopCtl.cont)
    else if pyStrip s ≠ [] then (runBody kb w s, LoopCtl.cont)
    else ([], LoopCtl.cont)

/-- The interactive loop (lines 201-258) over a finite prefix of the input
stream, each turn paired with its oracle. -/
def runLoop (kb : Option (List Char)) : List (Input × World) → List Event
  | [] => []
  | (i, w) :: rest =>
    match processInput kb w i with
    | (evs, LoopCtl.brk) => evs
    | (evs, LoopCtl.cont) => evs ++ runLoop kb rest

/-- Lines 194-200: the welcome display at interactive startup. -/
def startupEvents (w : World) : List Event :=
  Event.welcomeCall ::
    (if w.welcomeStatus then [Event.welcomeRender w.welcomeText] else [])

/-- Lines 180-192: the one-shot path for a joined query. A raised exception is
not handled here, so it truncates the trace. -/
def runOneShot (kb : Option (List Char)) (w : World) (query : List Char) :
    List Event :=
  match getKb kb with
  | some k =>
    [Event.retrieveCall query k] ++
      (if w.retrieveRaises then []
       else [Event.agentCall query] ++
         (if w.agentRaises then [] else [Event.storeCall query k]))
  | none => [Event.agentCall query]

/-- Lines 180-258: after argument parsing, `main` either runs the one-shot
path (when positional query arguments were given) or enters the interactive
loop. `w` is the oracle for the startup/one-shot calls; `inputs` is the
interactive input stream. -/
def mainRun (queryArgs : List (List Char)) (kbArg envKb : Option (List Char))
    (w : World) (inputs : List (Input × World)) : List Event :=
  let kb := knowledgeBaseId kbArg envKb
  if queryArgs ≠ [] then runOneShot kb w (pyJoin queryArgs)
  else startupEvents w ++ runLoop kb inputs

/-! ## Event counters -/

/-- Whether an event is a shell tool invocation. -/
def isShellEv : Event → Bool
  | Event.shellCall _ _ => true
  | _ => false

/-- Whether an event is a `python_repl` tool invocation. -/
def isReplEv : Event → Bool
  | Event.replCall _ _ => true
  | _ => false

/-- Whether an event is an agent invocation. -/
def isAgentEv : Event → Bool
  | Event.agentCall _ => true
  | _ => false

/-- Whether an event is a knowledge-base retrieval. -/
def isRetrieveEv : Event → Bool
  | Event.retrieveCall _ _ => true
  | _ => false

/-- Whether an event is a knowledge-base store. -/
def isStoreEv : Event → Bool
  | Event.storeCall _ _ => true
  | _ => false

/-- Number of shell invocations in a trace. -/
def countShell (evs : List Event) : Nat := evs.countP isShellEv

/-- Number of `python_repl` invocations in a trace. -/
def countRepl (evs : List Event) : Nat := evs.countP isReplEv

/-- Number of agent invocations in a trace. -/
def countAgent (evs : List Event) : Nat := evs.countP isAgentEv

/-- Number of knowledge-base retrievals in a trace. -/
def countRetrieve (evs : List Event) : Nat := evs.countP isRetrieveEv

/-- Number of knowledge-base stores in a trace. -/
def countStore (evs : List Event) : Nat := evs.countP isStoreEv

/-! ## Helper lemmas -/

lemma exit_data : "exit".data = ['e', 'x', 'i', 't'] := rfl

lemma quit_data : "quit".data = ['q', 'u', 'i', 't'] := rfl

lemma pyLower_cons (c : Char) (t : List Char) :
    pyLower (c :: t) = Char.toLower c :: pyLower t := rfl

lemma not_isExit_cons {c : Char} (t : List Char) (h1 : Char.toLower c ≠ 'e')
    (h2 : Char.toLower c ≠ 'q') : ¬ isExit (c :: t) := by
  intro h
  rcases h with h | h
  · rw [pyLower_cons, exit_data] at h
    injection h with h' _
    exact h1 h'
  · rw [pyLower_cons, quit_data] at h
    injection h with h' _
    exact h2 h'

lemma startsWith_not_exit {c : Char} {s : List Char} (hc1 : Char.toLower c ≠ 'e')
    (hc2 : Char.toLower c ≠ 'q') (h : pyStartsWith c s = true) : ¬ isExit s := by
  match s with
  | [] => simp [pyStartsWith] at h
  | a :: t =>
    simp only [pyStartsWith, decide_eq_true_eq] at h
    subst h
    exact not_isExit_cons t hc1 hc2

lemma toLower_of_isWhitespace {c : Char} (h : c.isWhitespace = true) :
    Char.toLower c = c := by
  simp only [Char.isWhitespace, Bool.or_eq_true, decide_eq_true_eq] at h
  rcases h with ((h | h) | h) | h <;> subst h <;> decide

lemma all_whitespace_of_strip_nil {s : List Char} (h : pyStrip s = []) :
    ∀ c ∈ s, c.isWhitespace = true := by
  unfold pyStrip at h
  rw [List.reverse_eq_nil_iff, List.dropWhile_eq_nil_iff] at h
  intro c hc
  rw [← List.takeWhile_append_dropWhile (p := Char.isWhitespace) (l := s)] at hc
  rcases List.mem_append.mp hc with h' | h'
  · exact List.mem_takeWhile_imp h'
  · exact h c (List.mem_reverse.mpr h')

lemma not_isExit_of_strip_nil {s : List Char} (h : pyStrip s = []) : ¬ isExit s := by
  have hws := all_whitespace_of_strip_nil h
  intro hex
  rcases hex with he | he
  · cases s with
    | nil => rw [exit_data] at he; exact absurd he (by decide)
    | cons c t =>
      rw [pyLower_cons, exit_data] at he
      injection he with h1 _
      rw [toLower_of_isWhitespace (hws c (List.mem_cons_self c t))] at h1
      subst h1
      exact absurd (hws 'e' (List.mem_cons_self 'e' t)) (by decide)
  · cases s with
    | nil => rw [quit_data] at he; exact absurd he (by decide)
    | cons c t =>
      rw [pyLower_cons, quit_data] at he
      injection he with h1 _
      rw [toLower_of_isWhitespace (hws c (List.mem_cons_self c t))] at h1
      subst h1
      exact absurd (hws 'q' (List.mem_cons_self 'q' t)) (by decide)

/-! ## Claim theorems -/

/-- C1: `load_extra_tools` reads tool names from the `.tools` configuration
file and the `STRANDS_EXTRA_TOOLS` environment variable, returns the
successfully imported tools from both sources combined, and skips without
raising any entry whose import fails, so an input with only malformed entries
yields the empty list. -/
theorem load_extra_tools_combined_and_tolerant {α : Type}
    (fc ev : Option (List Char)) (imp : List Char → Option α) :
    load_extra_tools fc ev imp =
      (toolNamesFromFile fc).filterMap imp ++ (toolNamesFromEnv ev).filterMap imp
    ∧ ((∀ n, imp n = none) → load_extra_tools fc ev imp = []) := by
  constructor
  · simp [load_extra_tools, List.filterMap_append]
  · intro h
    simp only [load_extra_tools, List.filterMap_eq_nil_iff]
    intro a _
    exact h a

/-- Witness for C1 at a concrete input: the import of every entry fails, so
the result is empty. -/
theorem load_extra_tools_combined_and_tolerant_witness :
    load_extra_tools (some "bad.entry".data) (some "x,y".data)
      (fun _ => (none : Option Nat)) = [] :=
  (load_extra_tools_combined_and_tolerant (some "bad.entry".data)
    (some "x,y".data) (fun _ => (none : Option Nat))).2 (fun _ => rfl)

/-- C5 counterexample: the list passed to the `Agent` constructor contains the
`load_tool` tool twice (lines 139 and 143 of `strands.py`), so "no tool
appears twice" fails. -/
theorem agentTools_load_tool_twice : agentTools.count ToolName.load_tool = 2 := by
  decide

/-- C5 (amended): the tools list is the same on every run — independent of the
command-line arguments and the environment — and contains each tool at most
once, except `load_tool`, which appears exactly twice. -/
theorem agentTools_fixed_and_almost_duplicate_free :
    (∀ a e, agentToolsOf a e = agentTools)
    ∧ agentTools.count ToolName.load_tool = 2
    ∧ ∀ t : ToolName, t = ToolName.load_tool ∨ agentTools.count t ≤ 1 :=
  ⟨fun _ _ => rfl, by decide, by decide⟩

/-- C6: the OTEL exporter variables are written if and only if `LANGFUSE_HOST`
is set and non-empty; when written, the endpoint is the host followed by
`/api/public/otel/v1/traces` and the header is `Authorization=Basic` followed
by the base64 encoding of `LANGFUSE_PUBLIC_KEY:LANGFUSE_SECRET_KEY`. -/
theorem otel_config_iff_langfuse_host (e : TelemetryEnv) :
    ((otelUpdates e).isSome = true ↔
      ∃ h : List Char, e.langfuseHost = some h ∧ h ≠ [])
    ∧ ∀ h : List Char, e.langfuseHost = some h → h ≠ [] →
        otelUpdates e = some (h ++ "/api/public/otel/v1/traces".data,
          "Authorization=Basic ".data ++
            b64encode (utf8Bytes
              (pyStr e.langfusePublicKey ++ ':' :: pyStr e.langfuseSecretKey))) := by
  constructor
  · cases hh : e.langfuseHost with
    | none => simp [otelUpdates, hh]
    | some h =>
      by_cases hnil : h = []
      · subst hnil
        simp [otelUpdates, hh]
      · simp [otelUpdates, hh, hnil]
  · intro h hh hnil
    simp [otelUpdates, hh, hnil]

/-- Witness for C6 at a concrete environment. -/
theorem otel_config_iff_langfuse_host_witness :
    otelUpdates
      { langfuseHost := some "https://cloud.langfuse.com".data,
        langfusePublicKey := some "pk".data,
        langfuseSecretKey := some "sk".data } =
      some ("https://cloud.langfuse.com".data ++ "/api/public/otel/v1/traces".data,
        "Authorization=Basic ".data ++
          b64encode (utf8Bytes
            (pyStr (some "pk".data) ++ ':' :: pyStr (some "sk".data)))) :=
  (otel_config_iff_langfuse_host
      { langfuseHost := some "https://cloud.langfuse.com".data,
        langfusePublicKey := some "pk".data,
        langfuseSecretKey := some "sk".data }).2
    "https://cloud.langfuse.com".data rfl (by decide)

/-- C2: in the interactive loop, an input starting with `!` invokes the shell
tool with the remainder of the line (whitespace preserved) and is not
forwarded to the agent; an input starting with `>` invokes `python_repl` with
the remainder stripped of surrounding whitespace and is not forwarded to the
agent; every other line that is non-empty after stripping and is not an exit
command is forwarded to the agent (under normal operation of the preceding
retrieval and welcome calls). -/
theorem interactive_dispatch (kb : Option (List Char)) (w : World) (s : List Char) :
    (pyStartsWith '!' s = true →
      (processInput kb w (Input.line s)).1 =
        [Event.echoPrint (s.drop 1), Event.shellCall (s.drop 1) s] ++
          (if w.shellRaises then [Event.errorPrint] else [Event.blankPrint])
      ∧ countAgent (processInput kb w (Input.line s)).1 = 0)
    ∧ (pyStartsWith '>' s = true →
      (processInput kb w (Input.line s)).1 =
        [Event.replCall (pyStrip (s.drop 1)) s] ++
          (if w.replRaises then [Event.errorPrint] else [Event.blankPrint])
      ∧ countAgent (processInput kb w (Input.line s)).1 = 0)
    ∧ (¬ isExit s → pyStartsWith '!' s = false → pyStartsWith '>' s = false →
        pyStrip s ≠ [] → w.retrieveRaises = false → w.welcomeRaises = false →
        Event.agentCall s ∈ (processInput kb w (Input.line s)).1) := by
  refine ⟨?_, ?_, ?_⟩
  · intro h
    have hne : ¬ isExit s := startsWith_not_exit (by decide) (by decide) h
    rw [processInput, if_neg hne, if_pos h]
    constructor
    · rfl
    · cases w.shellRaises <;>
        simp [countAgent, List.countP_cons, isAgentEv]
  · intro h
    have hne : ¬ isExit s := startsWith_not_exit (by decide) (by decide) h
    have hbang : pyStartsWith '!' s = false := by
      match s with
      | [] => rfl
      | a :: t =>
        simp only [pyStartsWith, decide_eq_true_eq] at h
        subst h
        simp [pyStartsWith]
    rw [processInput, if_neg hne, if_neg (by simp [hbang]), if_pos h]
    constructor
    · rfl
    · cases w.replRaises <;>
        simp [countAgent, List.countP_cons, isAgentEv]
  · intro hne hbang hgt hstrip hr hw
    rw [processInput, if_neg hne, if_neg (by simp [hbang]),
      if_neg (by simp [hgt]), if_pos hstrip]
    rw [runBody]
    cases hk : getKb kb with
    | some k =>
      simp only [hr, hw]
      cases w.agentRaises <;> cases w.storeRaises <;> simp
    | none =>
      simp only [hw]
      cases w.agentRaises <;> simp

/-- Witness for C2 at concrete inputs: `!ls` goes to the shell tool only,
`> 1+1` goes to `python_repl` only, and `hi` is forwarded to the agent. -/
theorem interactive_dispatch_witness :
    countAgent (processInput none wOK (Input.line "!ls".data)).1 = 0
    ∧ countAgent (processInput none wOK (Input.line "> 1+1".data)).1 = 0
    ∧ Event.agentCall "hi".data ∈ (processInput none wOK (Input.line "hi".data)).1 :=
  ⟨((interactive_dispatch none wOK "!ls".data).1 (by decide)).2,
   ((interactive_dispatch none wOK "> 1+1".data).2.1 (by decide)).2,
   (interactive_dispatch none wOK "hi".data).2.2 (by decide) (by decide)
     (by decide) (by decide) rfl rfl⟩

/-- C8: an input equal to `exit` or `quit` after lowercasing makes the loop
render the goodbye message and break, before any dispatch: the emitted trace
is exactly the goodbye message, so nothing reaches the shell tool,
`python_repl`, or the agent; a `KeyboardInterrupt`/`EOFError` at the read
likewise renders the goodbye message and breaks. -/
theorem exit_and_interrupt_terminate (kb : Option (List Char)) (w : World)
    (s : List Char) :
    (isExit s → processInput kb w (Input.line s) = ([Event.goodbye], LoopCtl.brk)
      ∧ countShell (processInput kb w (Input.line s)).1 = 0
      ∧ countRepl (processInput kb w (Input.line s)).1 = 0
      ∧ countAgent (processInput kb w (Input.line s)).1 = 0)
    ∧ processInput kb w Input.interrupt = ([Event.goodbye], LoopCtl.brk) := by
  constructor
  · intro h
    rw [processInput, if_pos h]
    refine ⟨rfl, ?_, ?_, ?_⟩ <;>
      simp [processInput, if_pos h, countShell, countRepl, countAgent,
        isShellEv, isReplEv, isAgentEv]
  · rfl

/-- Witness for C8: the input `EXIT` (case-insensitive match) terminates the
loop with only the goodbye message. -/
theorem exit_and_interrupt_terminate_witness :
    processInput none wOK (Input.line "EXIT".data) = ([Event.goodbye], LoopCtl.brk)
    ∧ countAgent (processInput none wOK (Input.line "EXIT".data)).1 = 0 :=
  ⟨((exit_and_interrupt_terminate none wOK "EXIT".data).1 (by decide)).1,
   ((exit_and_interrupt_terminate none wOK "EXIT".data).1 (by decide)).2.2.2⟩

/-- C9: an input that is empty or whitespace-only (and starts with neither `!`
nor `>`) emits no event at all — in particular the agent is not invoked and
the knowledge base is neither queried nor written — and the loop continues
with the next input. -/
theorem whitespace_input_noop (kb : Option (List Char)) (w : World)
    (s : List Char) (rest : List (Input × World)) :
    pyStrip s = [] → pyStartsWith '!' s = false → pyStartsWith '>' s = false →
    processInput kb w (Input.line s) = ([], LoopCtl.cont)
    ∧ runLoop kb ((Input.line s, w) :: rest) = runLoop kb rest := by
  intro h hbang hgt
  have hne : ¬ isExit s := not_isExit_of_strip_nil h
  have hmain : processInput kb w (Input.line s) = ([], LoopCtl.cont) := by
    rw [processInput, if_neg hne, if_neg (by simp [hbang]),
      if_neg (by simp [hgt]), if_neg (by simp [h])]
  refine ⟨hmain, ?_⟩
  rw [runLoop, hmain]
  rfl

/-- Witness for C9: three spaces of input produce no events and the loop goes
on to process the next input. -/
theorem whitespace_input_noop_witness :
    processInput none wOK (Input.line "   ".data) = ([], LoopCtl.cont)
    ∧ runLoop none [(Input.line "   ".data, wOK)] = runLoop none [] :=
  whitespace_input_noop none wOK "   ".data [] (by decide) (by decide) (by decide)

/-- C3: when at least one positional query argument is given, `main` runs the
one-shot path on the space-joined query — invoking the agent exactly once with
it under normal retrieval — and never enters the interactive loop (no welcome
display, no goodbye); with no positional argument it enters the interactive
loop after the welcome display. -/
theorem one_shot_selection (queryArgs : List (List Char))
    (kbArg envKb : Option (List Char)) (w : World)
    (inputs : List (Input × World)) :
    (queryArgs ≠ [] →
      mainRun queryArgs kbArg envKb w inputs =
        runOneShot (knowledgeBaseId kbArg envKb) w (pyJoin queryArgs)
      ∧ (w.retrieveRaises = false →
          countAgent (mainRun queryArgs kbArg envKb w inputs) = 1)
      ∧ Event.welcomeCall ∉ mainRun queryArgs kbArg envKb w inputs
      ∧ Event.goodbye ∉ mainRun queryArgs kbArg envKb w inputs)
    ∧ (queryArgs = [] →
      mainRun queryArgs kbArg envKb w inputs =
        startupEvents w ++ runLoop (knowledgeBaseId kbArg envKb) inputs) := by
  constructor
  · intro h
    have heq : mainRun queryArgs kbArg envKb w inputs =
        runOneShot (knowledgeBaseId kbArg envKb) w (pyJoin queryArgs) := by
      rw [mainRun]
      simp only [h, ne_eq, not_false_eq_true, if_true]
    refine ⟨heq, ?_, ?_, ?_⟩
    · intro hr
      rw [heq, runOneShot]
      cases hk : getKb (knowledgeBaseId kbArg envKb) with
      | some k =>
        simp only [hr]
        cases w.agentRaises <;>
          simp [countAgent, List.countP_cons, List.countP_append, isAgentEv]
      | none => simp [countAgent, List.countP_cons, isAgentEv]
    · rw [heq, runOneShot]
      cases hk : getKb (knowledgeBaseId kbArg envKb) with
      | some k =>
        cases w.retrieveRaises <;> cases w.agentRaises <;> simp
      | none => simp
    · rw [heq, runOneShot]
      cases hk : getKb (knowledgeBaseId kbArg envKb) with
      | some k =>
        cases w.retrieveRaises <;> cases w.agentRaises <;> simp
      | none => simp
  · intro h
    rw [mainRun]
    simp only [h, ne_eq, not_true_eq_false, if_false]

/-- Witness for C3: a single query argument runs the one-shot path with one
agent invocation, and no query argument enters the interactive loop. -/
theorem one_shot_selection_witness :
    countAgent (mainRun ["hi".data] none none wOK []) = 1
    ∧ mainRun [] none none wOK [] =
        startupEvents wOK ++ runLoop (knowledgeBaseId none none) [] :=
  ⟨((one_shot_selection ["hi".data] none none wOK []).1 (by decide)).2.1 rfl,
   (one_shot_selection [] none none wOK []).2 rfl⟩

/-- C7: within a single interactive-loop iteration each of the shell tool,
`python_repl`, and the agent is invoked at most once — even when an invocation
fails, it is not re-attempted — and the one-shot path invokes the agent at
most once, exactly once under normal retrieval. -/
theorem no_retries (kb : Option (List Char)) (w : World) (i : Input)
    (q : List Char) :
    countShell (processInput kb w i).1 ≤ 1
    ∧ countRepl (processInput kb w i).1 ≤ 1
    ∧ countAgent (processInput kb w i).1 ≤ 1
    ∧ countAgent (runOneShot kb w q) ≤ 1
    ∧ (w.retrieveRaises = false → countAgent (runOneShot kb w q) = 1) := by
  have hproc : countShell (processInput kb w i).1 ≤ 1
      ∧ countRepl (processInput kb w i).1 ≤ 1
      ∧ countAgent (processInput kb w i).1 ≤ 1 := by
    cases i with
    | interrupt =>
      simp [processInput, countShell, countRepl, countAgent,
        isShellEv, isReplEv, isAgentEv]
    | line s =>
      rw [processInput]
      split_ifs <;>
        try simp [countShell, countRepl, countAgent, isShellEv, isReplEv,
          isAgentEv, List.countP_cons, List.countP_append, List.countP_nil]
      unfold runBody
      cases hk : getKb kb with
      | some k =>
        cases w.retrieveRaises <;> cases w.welcomeRaises <;>
          cases w.agentRaises <;> cases w.storeRaises <;>
          simp [countShell, countRepl, countAgent, isShellEv, isReplEv,
            isAgentEv, List.countP_cons, List.countP_append]
      | none =>
        cases w.welcomeRaises <;> cases w.agentRaises <;>
          simp [countShell, countRepl, countAgent, isShellEv, isReplEv,
            isAgentEv, List.countP_cons, List.countP_append]
  have hos : countAgent (runOneShot kb w q) ≤ 1
      ∧ (w.retrieveRaises = false → countAgent (runOneShot kb w q) = 1) := by
    rw [runOneShot]
    cases hk : getKb kb with
    | some k =>
      cases hr : w.retrieveRaises <;> cases w.agentRaises <;>
        simp [countAgent, List.countP_cons, List.countP_append, isAgentEv]
    | none => simp [countAgent, List.countP_cons, isAgentEv]
  exact ⟨hproc.1, hproc.2.1, hproc.2.2, hos.1, hos.2⟩

/-- Witness for C7: a failing agent invocation on a plain input is attempted
once and once only, and the one-shot path with normal retrieval invokes the
agent exactly once. -/
theorem no_retries_witness :
    countAgent (processInput none
      { wOK with agentRaises := true } (Input.line "hi".data)).1 ≤ 1
    ∧ countAgent (runOneShot none wOK "hi".data) = 1 :=
  ⟨(no_retries none { wOK with agentRaises := true }
      (Input.line "hi".data) "hi".data).2.2.1,
   (no_retries none wOK Input.interrupt "hi".data).2.2.2.2 rfl⟩

/-- C10: the interactive loop only exits on an `exit`/`quit` input or a
`KeyboardInterrupt`/`EOFError`; any exception raised by the shell,
`python_repl`, retrieve, welcome, or agent invocation while processing an
input is caught, an error message is printed, and the loop continues with the
next input. -/
theorem loop_exception_resilience (kb : Option (List Char)) (w : World)
    (s : List Char) (i : Input) (rest : List (Input × World)) :
    (¬ isExit s → (processInput kb w (Input.line s)).2 = LoopCtl.cont)
    ∧ ((processInput kb w i).2 = LoopCtl.brk ↔
        i = Input.interrupt ∨ ∃ t, i = Input.line t ∧ isExit t)
    ∧ (pyStartsWith '!' s = true → w.shellRaises = true →
        Event.errorPrint ∈ (processInput kb w (Input.line s)).1)
    ∧ (pyStartsWith '>' s = true → w.replRaises = true →
        Event.errorPrint ∈ (processInput kb w (Input.line s)).1)
    ∧ (¬ isExit s → pyStartsWith '!' s = false → pyStartsWith '>' s = false →
        pyStrip s ≠ [] → w.agentRaises = true → w.retrieveRaises = false →
        w.welcomeRaises = false →
        Event.errorPrint ∈ (processInput kb w (Input.line s)).1)
    ∧ ((processInput kb w i).2 = LoopCtl.cont →
        runLoop kb ((i, w) :: rest) = (processInput kb w i).1 ++ runLoop kb rest) := by
  have hcont : ∀ t : List Char, ¬ isExit t →
      (processInput kb w (Input.line t)).2 = LoopCtl.cont := by
    intro t ht
    rw [processInput, if_neg ht]
    split_ifs <;> rfl
  refine ⟨hcont s, ?_, ?_, ?_, ?_, ?_⟩
  · cases i with
    | interrupt => simp [processInput]
    | line t =>
      by_cases he : isExit t
      · rw [processInput, if_pos he]
        simp [he]
      · rw [hcont t he]
        simp [he]
  · intro h hs
    have hne : ¬ isExit s := startsWith_not_exit (by decide) (by decide) h
    rw [processInput, if_neg hne, if_pos h]
    simp [hs]
  · intro h hs
    have hne : ¬ isExit s := startsWith_not_exit (by decide) (by decide) h
    have hbang : pyStartsWith '!' s = false := by
      match s with
      | [] => rfl
      | a :: t =>
        simp only [pyStartsWith, decide_eq_true_eq] at h
        subst h
        simp [pyStartsWith]
    rw [processInput, if_neg hne, if_neg (by simp [hbang]), if_pos h]
    simp [hs]
  · intro hne hbang hgt hstrip ha hr hw
    rw [processInput, if_neg hne, if_neg (by simp [hbang]),
      if_neg (by simp [hgt]), if_pos hstrip]
    unfold runBody
    cases hk : getKb kb with
    | some k => simp [hr, hw, ha]
    | none => simp [hw, ha]
  · intro h
    rcases hp : processInput kb w i with ⟨evs, ctl⟩
    rw [hp] at h
    simp only at h
    subst h
    rw [runLoop, hp]

/-- Witness for C10: a failing agent call on the input `hi` prints an error
and the loop continues; a failing shell call on `!ls` likewise; the loop is
then processed onward. -/
theorem loop_exception_resilience_witness :
    (processInput none { wOK with agentRaises := true }
      (Input.line "hi".data)).2 = LoopCtl.cont
    ∧ Event.errorPrint ∈ (processInput none { wOK with agentRaises := true }
        (Input.line "hi".data)).1
    ∧ Event.errorPrint ∈ (processInput none { wOK with shellRaises := true }
        (Input.line "!ls".data)).1
    ∧ runLoop none [(Input.line "hi".data, wOK), (Input.interrupt, wOK)] =
        (processInput none wOK (Input.line "hi".data)).1 ++
          runLoop none [(Input.interrupt, wOK)] :=
  ⟨(loop_exception_resilience none { wOK with agentRaises := true }
      "hi".data (Input.line "hi".data) []).1 (by decide),
   (loop_exception_resilience none { wOK with agentRaises := true }
      "hi".data (Input.line "hi".data) []).2.2.2.2.1 (by decide) (by decide)
      (by decide) (by decide) rfl rfl rfl,
   (loop_exception_resilience none { wOK with shellRaises := true }
      "!ls".data (Input.line "!ls".data) []).2.2.1 (by decide) rfl,
   (loop_exception_resilience none wOK "hi".data (Input.line "hi".data)
      [(Input.interrupt, wOK)]).2.2.2.2.2 (by decide)⟩

/-- C4 counterexample: when `--kb` is given as the empty string and
`STRANDS_KNOWLEDGE_BASE_ID` is unset, the argument was supplied on the command
line but `knowledge_base_id` is falsy, so the one-shot run never queries nor
writes the knowledge base — the claim's "if the argument is given the
knowledge base is used" fails at this input. -/
theorem kb_empty_flag_counterexample :
    countRetrieve (mainRun ["hi".data] (some []) none wOK []) = 0
    ∧ countStore (mainRun ["hi".data] (some []) none wOK []) = 0 := by
  decide

/-- C4 (amended): a knowledge base is used if and only if `--kb` is given with
a non-empty value or `STRANDS_KNOWLEDGE_BASE_ID` is set to a non-empty value;
when used, every query — both the one-shot query and each forwarded
interactive input — is sent to the retrieve tool before the agent, and the
conversation is stored afterwards; when not used, no retrieval or storing ever
happens. -/
theorem kb_usage_amended (kbArg envKb : Option (List Char)) (k q s : List Char)
    (i : Input) (w : World) :
    (getKb (knowledgeBaseId kbArg envKb) ≠ none ↔
      pyTruthy kbArg = true ∨ pyTruthy envKb = true)
    ∧ (getKb (knowledgeBaseId kbArg envKb) = some k →
        runOneShot (knowledgeBaseId kbArg envKb) wOK q =
          [Event.retrieveCall q k, Event.agentCall q, Event.storeCall q k]
        ∧ (¬ isExit s → pyStartsWith '!' s = false → pyStartsWith '>' s = false →
            pyStrip s ≠ [] →
            (processInput (knowledgeBaseId kbArg envKb) wOK (Input.line s)).1 =
              [Event.retrieveCall s k, Event.welcomeCall, Event.agentCall s,
               Event.storeCall s k]))
    ∧ (getKb (knowledgeBaseId kbArg envKb) = none →
        countRetrieve (processInput (knowledgeBaseId kbArg envKb) w i).1 = 0
        ∧ countStore (processInput (knowledgeBaseId kbArg envKb) w i).1 = 0
        ∧ countRetrieve (runOneShot (knowledgeBaseId kbArg envKb) w q) = 0
        ∧ countStore (runOneShot (knowledgeBaseId kbArg envKb) w q) = 0) := by
  refine ⟨?_, ?_, ?_⟩
  · unfold knowledgeBaseId pyOr
    cases kbArg with
    | none =>
      cases envKb with
      | none => simp [getKb, pyTruthy]
      | some b => by_cases hb : b = [] <;> simp [getKb, pyTruthy, hb]
    | some a =>
      by_cases ha : a = []
      · cases envKb with
        | none => simp [getKb, pyTruthy, ha]
        | some b => by_cases hb : b = [] <;> simp [getKb, pyTruthy, ha, hb]
      · simp [getKb, pyTruthy, ha]
  · intro hk
    constructor
    · rw [runOneShot]
      simp [hk, wOK]
    · intro hne hbang hgt hstrip
      rw [processInput, if_neg hne, if_neg (by simp [hbang]),
        if_neg (by simp [hgt]), if_pos hstrip]
      unfold runBody
      simp [hk, wOK]
  · intro hk
    have hos : countRetrieve (runOneShot (knowledgeBaseId kbArg envKb) w q) = 0
        ∧ countStore (runOneShot (knowledgeBaseId kbArg envKb) w q) = 0 := by
      rw [runOneShot]
      simp [hk, countRetrieve, countStore, isRetrieveEv, isStoreEv]
    have hpi : countRetrieve (processInput (knowledgeBaseId kbArg envKb) w i).1 = 0
        ∧ countStore (processInput (knowledgeBaseId kbArg envKb) w i).1 = 0 := by
      cases i with
      | interrupt =>
        simp [processInput, countRetrieve, countStore, isRetrieveEv, isStoreEv]
      | line t =>
        rw [processInput]
        split_ifs <;>
          try simp [countRetrieve, countStore, isRetrieveEv, isStoreEv,
            List.countP_cons, List.countP_append, List.countP_nil]
        unfold runBody
        rw [hk]
        cases w.welcomeRaises <;> cases w.agentRaises <;>
          simp [countRetrieve, countStore, isRetrieveEv, isStoreEv,
            List.countP_cons, List.countP_append]
    exact ⟨hpi.1, hpi.2, hos.1, hos.2⟩

/-- Witness for C4's amended theorem: with `--kb KB123`, the one-shot run for
`hi` retrieves, queries the agent, then stores; the interactive input `ask`
does the same around the welcome refresh; with no knowledge-base source at
all, nothing is retrieved. -/
theorem kb_usage_amended_witness :
    runOneShot (knowledgeBaseId (some "KB123".data) none) wOK "hi".data =
      [Event.retrieveCall "hi".data "KB123".data, Event.agentCall "hi".data,
       Event.storeCall "hi".data "KB123".data]
    ∧ (processInput (knowledgeBaseId (some "KB123".data) none) wOK
        (Input.line "ask".data)).1 =
        [Event.retrieveCall "ask".data "KB123".data, Event.welcomeCall,
         Event.agentCall "ask".data, Event.storeCall "ask".data "KB123".data]
    ∧ countRetrieve (runOneShot (knowledgeBaseId none none) wOK "hi".data) = 0 :=
  ⟨((kb_usage_amended (some "KB123".data) none "KB123".data "hi".data
      "ask".data Input.interrupt wOK).2.1 (by decide)).1,
   ((kb_usage_amended (some "KB123".data) none "KB123".data "hi".data
      "ask".data Input.interrupt wOK).2.1 (by decide)).2 (by decide) (by decide)
      (by decide) (by decide),
   ((kb_usage_amended none none "KB123".data "hi".data "ask".data
      Input.interrupt wOK).2.2 (by decide)).2.2.1⟩
